import Mathlib

/-!
# Shallow embedding of `package/model/individuals.py` (Culture-Network)

The repository defines a single agent class `Individual` whose state evolves
over discrete time steps.  Real-number state is embedded with `ℚ`; numpy
1-D arrays become `List ℚ`; numpy elementwise arithmetic on equal-length
arrays becomes `List.zipWith`; the gaussian noise drawn by `update_thresholds`
and `update_thresholdTA` is passed in explicitly as data, so theorems
quantify over every possible draw.
-/

namespace CultureNetwork

/-- Elementwise addition of two equal-length numpy 1-D arrays. -/
def vAdd (a b : List ℚ) : List ℚ := List.zipWith (· + ·) a b

/-- Elementwise subtraction of two equal-length numpy 1-D arrays. -/
def vSub (a b : List ℚ) : List ℚ := List.zipWith (· - ·) a b

/-- Scalar times numpy 1-D array. -/
def sMul (c : ℚ) (v : List ℚ) : List ℚ := v.map (fun x => c * x)

/-- `np.matmul` of two 1-D arrays of equal length: the dot product. -/
def dotQ (v w : List ℚ) : ℚ := (List.zipWith (· * ·) v w).sum

/-- `np.clip(x, 0, 1)` on a scalar. -/
def clip01 (x : ℚ) : ℚ := max 0 (min x 1)

/-- `np.mean((1 - attitudes) ** 2)`: the mean over the array of the squared
distance of each attitude from 1. -/
def meanSqGap (att : List ℚ) : ℚ :=
  (att.map (fun a => (1 - a) ^ 2)).sum / (att.length : ℚ)

/-- `np.matmul(d, m)` of a 1-D array `d` (length = number of rows of `m`)
with a rectangular 2-D array `m`, given as its list of rows: component `j`
of the result is the dot product of `d` with column `j` of `m`. -/
def rowMatMul (d : List ℚ) (m : List (List ℚ)) : List ℚ :=
  (List.range (m.headD []).length).map
    (fun j => dotQ d (m.map (fun r => r.getD j 0)))

/-- Minimum of a list (0 for the empty list, which never occurs in use). -/
def minD : List ℚ → ℚ
  | [] => 0
  | a :: l => l.foldl min a

/-- Maximum of a list (0 for the empty list, which never occurs in use). -/
def maxD : List ℚ → ℚ
  | [] => 0
  | a :: l => l.foldl max a

/-- The convex-combination social-learning rule shared by the four update
methods: `(1 - phi_array) * old + phi_array * influence` (elementwise). -/
def socialUpd (phi old influence : List ℚ) : List ℚ :=
  vAdd (List.zipWith (fun p x => (1 - p) * x) phi old)
    (List.zipWith (· * ·) phi influence)

/-- The random draws consumed by one default-mode step:
`rng.normal(loc=0, scale=0.03, size=len(thresholds))` is modelled as the
function `delta_thresholds` (one draw per index), and the three draws of
`update_thresholdTA` as `delta_TA0/1/2`.  Nothing constrains the values, so
every magnitude of noise is covered. -/
structure StepNoise where
  delta_thresholds : ℕ → ℚ
  delta_TA0 : ℚ
  delta_TA1 : ℚ
  delta_TA2 : ℚ

/-- The `individual_params` dict entries read by `Individual.__init__`. -/
structure IndividualParams where
  M : ℕ
  t : ℤ
  save_timeseries_data : Bool
  compression_factor : ℤ
  phi_array : List ℚ
  alpha_change : String

/-- State of one agent: the mutable attributes of the Python class
`Individual`.  Fields that Python leaves unset in one of the two modes
(`attitudes_matrix`, `attitudes_star`, the history logs when saving is off)
are represented by `[]`; they are never read in the states where Python
leaves them unset. -/
structure Individual where
  attitudes : List ℚ
  initial_first_attitude : ℚ
  thresholds : List ℚ
  normalized_discount_vector : List ℚ
  cultural_inertia : ℕ
  pU : List ℚ
  pC : List ℚ
  pR : List ℚ
  thresholdspU : List ℚ
  thresholdspC : List ℚ
  thresholdspR : List ℚ
  M : ℕ
  t : ℤ
  save_timeseries_data : Bool
  compression_factor : ℤ
  phi_array : List ℚ
  alpha_change : String
  id : ℤ
  green_fountain_state : ℤ
  attitudes_matrix : List (List ℚ)
  attitudes_star : List ℚ
  values : List ℚ
  av_behaviour : ℚ
  av_behaviour_list : List ℚ
  identity : ℚ
  initial_carbon_emissions : ℚ
  behavioural_carbon_emissions : List ℚ
  individual_carbon_emissions_flow : ℚ
  history_behaviour_values : List (List ℚ)
  history_behaviour_attitudes : List (List ℚ)
  history_behaviour_thresholds : List (List ℚ)
  history_TA : List (List ℚ)
  history_thresholdsTA : List (List ℚ)
  history_av_behaviour : List ℚ
  history_identity : List ℚ
  history_individual_carbon_emissions_flow : List ℚ
  history_behavioural_carbon_emissions : List (List ℚ)
deriving DecidableEq

namespace Individual

/-- Property `TA`: `0.7 * pU - 0.2 * pC - 0.1 * pR` (elementwise). -/
def TA (s : Individual) : List ℚ :=
  vSub (vSub (sMul 0.7 s.pU) (sMul 0.2 s.pC)) (sMul 0.1 s.pR)

/-- Property `thresholdsTA`:
`0.7 * thresholdspU - 0.2 * thresholdspC - 0.1 * thresholdspR`. -/
def thresholdsTA (s : Individual) : List ℚ :=
  vSub (vSub (sMul 0.7 s.thresholdspU) (sMul 0.2 s.thresholdspC))
    (sMul 0.1 s.thresholdspR)

/-- `calc_av_behaviour`: `self.av_behaviour = np.mean((1 - self.attitudes) ** 2)`. -/
def calc_av_behaviour (s : Individual) : Individual :=
  { s with av_behaviour := meanSqGap s.attitudes }

/-- `update_av_behaviour_list`: `pop()` the last entry, `insert(0, av_behaviour)`. -/
def update_av_behaviour_list (s : Individual) : Individual :=
  { s with av_behaviour_list := s.av_behaviour :: s.av_behaviour_list.dropLast }

/-- `calc_identity`: `np.matmul(normalized_discount_vector, av_behaviour_list)`. -/
def calc_identity (s : Individual) : ℚ :=
  dotQ s.normalized_discount_vector s.av_behaviour_list

/-- `update_attitudes_matrix`:
`np.vstack([np.asarray([attitudes]), attitudes_matrix[:-1,:]])` — the current
attitude row is pushed at the front, the last row is dropped. -/
def update_attitudes_matrix (s : Individual) : Individual :=
  { s with attitudes_matrix := s.attitudes :: s.attitudes_matrix.dropLast }

/-- `calc_attitudes_star`: `np.matmul(normalized_discount_vector, attitudes_matrix)`. -/
def calc_attitudes_star (s : Individual) : List ℚ :=
  rowMatMul s.normalized_discount_vector s.attitudes_matrix

/-- `update_values`:
`values = 0.5 * (attitudes - thresholds) + 0.5 * (TA - thresholdsTA)`. -/
def update_values (s : Individual) : Individual :=
  { s with values := vAdd (sMul 0.5 (vSub s.attitudes s.thresholds))
                          (sMul 0.5 (vSub s.TA s.thresholdsTA)) }

/-- `update_attitudes`:
`attitudes = (1 - phi_array) * attitudes + phi_array * social_component`. -/
def update_attitudes (social_component : List ℚ) (s : Individual) : Individual :=
  { s with attitudes := socialUpd s.phi_array s.attitudes social_component }

/-- `update_pU`: same convex-combination rule applied to `pU`. -/
def update_pU (social_component : List ℚ) (s : Individual) : Individual :=
  { s with pU := socialUpd s.phi_array s.pU social_component }

/-- `update_pC`: same convex-combination rule applied to `pC`. -/
def update_pC (TA_component : List ℚ) (s : Individual) : Individual :=
  { s with pC := socialUpd s.phi_array s.pC TA_component }

/-- `update_pR`: same convex-combination rule applied to `pR`. -/
def update_pR (TA_component : List ℚ) (s : Individual) : Individual :=
  { s with pR := socialUpd s.phi_array s.pR TA_component }

/-- `update_thresholds`: one gaussian draw per entry is added and the result
clipped to `[0,1]`.  `rng.normal(size=len(thresholds))` always matches the
length of `thresholds`, so the draws are modelled as a function of the index. -/
def update_thresholds (delta : ℕ → ℚ) (s : Individual) : Individual :=
  { s with thresholds := s.thresholds.mapIdx (fun i x => clip01 (x + delta i)) }

/-- `update_thresholdTA`: three independent draws; each TA-threshold array
gets its scalar draw added (numpy broadcast) and is clipped to `[0,1]`. -/
def update_thresholdTA (d0 d1 d2 : ℚ) (s : Individual) : Individual :=
  { s with
    thresholdspU := s.thresholdspU.map (fun x => clip01 (x + d0)),
    thresholdspC := s.thresholdspC.map (fun x => clip01 (x + d1)),
    thresholdspR := s.thresholdspR.map (fun x => clip01 (x + d2)) }

/-- `calc_total_emissions_flow`: the list
`[(1 - values[i]) / 2 for i in range(M)]` and its sum. -/
def calc_total_emissions_flow (s : Individual) : ℚ × List ℚ :=
  let behavioural_emissions :=
    (List.range s.M).map (fun i => (1 - s.values.getD i 0) / 2)
  (behavioural_emissions.sum, behavioural_emissions)

/-- `save_timeseries_data_individual`: appends the current value of eight of
the nine history logs.  Note that `history_thresholdsTA`, although created by
`__init__`, is never appended to here. -/
def save_timeseries_data_individual (s : Individual) : Individual :=
  { s with
    history_behaviour_values := s.history_behaviour_values ++ [s.values],
    history_behaviour_attitudes := s.history_behaviour_attitudes ++ [s.attitudes],
    history_behaviour_thresholds := s.history_behaviour_thresholds ++ [s.thresholds],
    history_TA := s.history_TA ++ [s.TA],
    history_identity := s.history_identity ++ [s.identity],
    history_av_behaviour := s.history_av_behaviour ++ [s.av_behaviour],
    history_individual_carbon_emissions_flow :=
      s.history_individual_carbon_emissions_flow ++ [s.individual_carbon_emissions_flow],
    history_behavioural_carbon_emissions :=
      s.history_behavioural_carbon_emissions ++ [s.behavioural_carbon_emissions] }

/-- `next_step(t, social_component, TA_component)`: one simulation step. -/
def next_step (t : ℤ) (social_component : List ℚ)
    (TA_component : List ℚ × List ℚ × List ℚ) (noise : StepNoise)
    (s : Individual) : Individual :=
  let s0 := { s with t := t }
  let s1 := s0.update_values
  let s2 := s1.update_attitudes social_component
  let s3 := s2.update_pU TA_component.1
  let s4 := s3.update_pC TA_component.2.1
  let s5 := s4.update_pR TA_component.2.2
  let s6 :=
    if s5.alpha_change = "behavioural_independence" then
      let sa := s5.update_attitudes_matrix
      { sa with attitudes_star := sa.calc_attitudes_star }
    else
      let sb := s5.update_thresholds noise.delta_thresholds
      let sc := sb.update_thresholdTA noise.delta_TA0 noise.delta_TA1 noise.delta_TA2
      let sd := sc.calc_av_behaviour
      let se := sd.update_av_behaviour_list
      { se with identity := se.calc_identity }
  let em := s6.calc_total_emissions_flow
  let s7 := { s6 with individual_carbon_emissions_flow := em.1,
                      behavioural_carbon_emissions := em.2 }
  if s7.save_timeseries_data && (s7.t % s7.compression_factor == 0) then
    s7.save_timeseries_data_individual
  else s7

/-- `Individual.__init__`: stores the inputs, seeds the sliding windows with
`cultural_inertia` copies of the cold-start value, and derives the initial
`values`, `av_behaviour`, `identity` and emissions.  When saving is on, every
history log (including `history_thresholdsTA`) starts with one entry. -/
def init (params : IndividualParams)
    (init_data_attitudes init_data_thresholds normalized_discount_vector : List ℚ)
    (cultural_inertia : ℕ)
    (init_data_pU init_data_pC init_data_pR : List ℚ)
    (init_data_thresholdspU init_data_thresholdspC init_data_thresholdspR : List ℚ)
    (id_n : ℤ) : Individual :=
  let base : Individual :=
    { attitudes := init_data_attitudes
      initial_first_attitude := init_data_attitudes.headD 0
      thresholds := init_data_thresholds
      normalized_discount_vector := normalized_discount_vector
      cultural_inertia := cultural_inertia
      pU := init_data_pU
      pC := init_data_pC
      pR := init_data_pR
      thresholdspU := init_data_thresholdspU
      thresholdspC := init_data_thresholdspC
      thresholdspR := init_data_thresholdspR
      M := params.M
      t := params.t
      save_timeseries_data := params.save_timeseries_data
      compression_factor := params.compression_factor
      phi_array := params.phi_array
      alpha_change := params.alpha_change
      id := id_n
      green_fountain_state := 0
      attitudes_matrix :=
        if params.alpha_change = "behavioural_independence" then
          List.replicate cultural_inertia init_data_attitudes
        else []
      attitudes_star := []
      values := vSub init_data_attitudes init_data_thresholds
      av_behaviour := meanSqGap init_data_attitudes
      av_behaviour_list := List.replicate cultural_inertia (meanSqGap init_data_attitudes)
      identity := 0
      initial_carbon_emissions := 0
      behavioural_carbon_emissions := []
      individual_carbon_emissions_flow := 0
      history_behaviour_values := []
      history_behaviour_attitudes := []
      history_behaviour_thresholds := []
      history_TA := []
      history_thresholdsTA := []
      history_av_behaviour := []
      history_identity := []
      history_individual_carbon_emissions_flow := []
      history_behavioural_carbon_emissions := [] }
  let base1 :=
    if params.alpha_change = "behavioural_independence" then
      { base with attitudes_star := base.calc_attitudes_star }
    else base
  let base2 := { base1 with identity := base1.calc_identity }
  let em := base2.calc_total_emissions_flow
  let base3 := { base2 with initial_carbon_emissions := em.1,
                            behavioural_carbon_emissions := em.2,
                            individual_carbon_emissions_flow := em.1 }
  if params.save_timeseries_data then
    { base3 with
      history_behaviour_values := [base3.values]
      history_behaviour_attitudes := [base3.attitudes]
      history_behaviour_thresholds := [base3.thresholds]
      history_TA := [base3.TA]
      history_thresholdsTA := [base3.thresholdsTA]
      history_av_behaviour := [base3.av_behaviour]
      history_identity := [base3.identity]
      history_individual_carbon_emissions_flow := [base3.individual_carbon_emissions_flow]
      history_behavioural_carbon_emissions := [base3.behavioural_carbon_emissions] }
  else base3

/- Projections of the elementary update operations that feed the two branch
conditions of `next_step`: none of them changes the mode flag, the telemetry
flag, the sampling stride or the recorded time. -/

@[simp] theorem update_values_alpha_change (s : Individual) :
    s.update_values.alpha_change = s.alpha_change := rfl

@[simp] theorem update_values_save_timeseries_data (s : Individual) :
    s.update_values.save_timeseries_data = s.save_timeseries_data := rfl

@[simp] theorem update_values_compression_factor (s : Individual) :
    s.update_values.compression_factor = s.compression_factor := rfl

@[simp] theorem update_values_t (s : Individual) :
    s.update_values.t = s.t := rfl

@[simp] theorem update_attitudes_alpha_change (s : Individual) (v : List ℚ) :
    (s.update_attitudes v).alpha_change = s.alpha_change := rfl

@[simp] theorem update_attitudes_save_timeseries_data (s : Individual) (v : List ℚ) :
    (s.update_attitudes v).save_timeseries_data = s.save_timeseries_data := rfl

@[simp] theorem update_attitudes_compression_factor (s : Individual) (v : List ℚ) :
    (s.update_attitudes v).compression_factor = s.compression_factor := rfl

@[simp] theorem update_attitudes_t (s : Individual) (v : List ℚ) :
    (s.update_attitudes v).t = s.t := rfl

@[simp] theorem update_pU_alpha_change (s : Individual) (v : List ℚ) :
    (s.update_pU v).alpha_change = s.alpha_change := rfl

@[simp] theorem update_pU_save_timeseries_data (s : Individual) (v : List ℚ) :
    (s.update_pU v).save_timeseries_data = s.save_timeseries_data := rfl

@[simp] theorem update_pU_compression_factor (s : Individual) (v : List ℚ) :
    (s.update_pU v).compression_factor = s.compression_factor := rfl

@[simp] theorem update_pU_t (s : Individual) (v : List ℚ) :
    (s.update_pU v).t = s.t := rfl

@[simp] theorem update_pC_alpha_change (s : Individual) (v : List ℚ) :
    (s.update_pC v).alpha_change = s.alpha_change := rfl

@[simp] theorem update_pC_save_timeseries_data (s : Individual) (v : List ℚ) :
    (s.update_pC v).save_timeseries_data = s.save_timeseries_data := rfl

@[simp] theorem update_pC_compression_factor (s : Individual) (v : List ℚ) :
    (s.update_pC v).compression_factor = s.compression_factor := rfl

@[simp] theorem update_pC_t (s : Individual) (v : List ℚ) :
    (s.update_pC v).t = s.t := rfl

@[simp] theorem update_pR_alpha_change (s : Individual) (v : List ℚ) :
    (s.update_pR v).alpha_change = s.alpha_change := rfl

@[simp] theorem update_pR_save_timeseries_data (s : Individual) (v : List ℚ) :
    (s.update_pR v).save_timeseries_data = s.save_timeseries_data := rfl

@[simp] theorem update_pR_compression_factor (s : Individual) (v : List ℚ) :
    (s.update_pR v).compression_factor = s.compression_factor := rfl

@[simp] theorem update_pR_t (s : Individual) (v : List ℚ) :
    (s.update_pR v).t = s.t := rfl

@[simp] theorem update_thresholds_alpha_change (s : Individual) (d : ℕ → ℚ) :
    (s.update_thresholds d).alpha_change = s.alpha_change := rfl

@[simp] theorem update_thresholds_save_timeseries_data (s : Individual) (d : ℕ → ℚ) :
    (s.update_thresholds d).save_timeseries_data = s.save_timeseries_data := rfl

@[simp] theorem update_thresholds_compression_factor (s : Individual) (d : ℕ → ℚ) :
    (s.update_thresholds d).compression_factor = s.compression_factor := rfl

@[simp] theorem update_thresholds_t (s : Individual) (d : ℕ → ℚ) :
    (s.update_thresholds d).t = s.t := rfl

@[simp] theorem update_thresholdTA_alpha_change (s : Individual) (a b c : ℚ) :
    (s.update_thresholdTA a b c).alpha_change = s.alpha_change := rfl

@[simp] theorem update_thresholdTA_save_timeseries_data (s : Individual) (a b c : ℚ) :
    (s.update_thresholdTA a b c).save_timeseries_data = s.save_timeseries_data := rfl

@[simp] theorem update_thresholdTA_compression_factor (s : Individual) (a b c : ℚ) :
    (s.update_thresholdTA a b c).compression_factor = s.compression_factor := rfl

@[simp] theorem update_thresholdTA_t (s : Individual) (a b c : ℚ) :
    (s.update_thresholdTA a b c).t = s.t := rfl

@[simp] theorem calc_av_behaviour_alpha_change (s : Individual) :
    s.calc_av_behaviour.alpha_change = s.alpha_change := rfl

@[simp] theorem calc_av_behaviour_save_timeseries_data (s : Individual) :
    s.calc_av_behaviour.save_timeseries_data = s.save_timeseries_data := rfl

@[simp] theorem calc_av_behaviour_compression_factor (s : Individual) :
    s.calc_av_behaviour.compression_factor = s.compression_factor := rfl

@[simp] theorem calc_av_behaviour_t (s : Individual) :
    s.calc_av_behaviour.t = s.t := rfl

@[simp] theorem update_av_behaviour_list_alpha_change (s : Individual) :
    s.update_av_behaviour_list.alpha_change = s.alpha_change := rfl

@[simp] theorem update_av_behaviour_list_save_timeseries_data (s : Individual) :
    s.update_av_behaviour_list.save_timeseries_data = s.save_timeseries_data := rfl

@[simp] theorem update_av_behaviour_list_compression_factor (s : Individual) :
    s.update_av_behaviour_list.compression_factor = s.compression_factor := rfl

@[simp] theorem update_av_behaviour_list_t (s : Individual) :
    s.update_av_behaviour_list.t = s.t := rfl

@[simp] theorem update_attitudes_matrix_alpha_change (s : Individual) :
    s.update_attitudes_matrix.alpha_change = s.alpha_change := rfl

@[simp] theorem update_attitudes_matrix_save_timeseries_data (s : Individual) :
    s.update_attitudes_matrix.save_timeseries_data = s.save_timeseries_data := rfl

@[simp] theorem update_attitudes_matrix_compression_factor (s : Individual) :
    s.update_attitudes_matrix.compression_factor = s.compression_factor := rfl

@[simp] theorem update_attitudes_matrix_t (s : Individual) :
    s.update_attitudes_matrix.t = s.t := rfl

@[simp] theorem save_timeseries_data_individual_alpha_change (s : Individual) :
    s.save_timeseries_data_individual.alpha_change = s.alpha_change := rfl

@[simp] theorem save_timeseries_data_individual_save_timeseries_data (s : Individual) :
    s.save_timeseries_data_individual.save_timeseries_data = s.save_timeseries_data := rfl

@[simp] theorem save_timeseries_data_individual_compression_factor (s : Individual) :
    s.save_timeseries_data_individual.compression_factor = s.compression_factor := rfl

@[simp] theorem save_timeseries_data_individual_t (s : Individual) :
    s.save_timeseries_data_individual.t = s.t := rfl

/- Per-field description of one call to `next_step`, split on the mode
branch; proved by unfolding the step and reducing each branch. -/

variable (s : Individual) (t : ℤ) (sc : List ℚ) (TAc : List ℚ × List ℚ × List ℚ) (n : StepNoise)

theorem next_step_values :
    (s.next_step t sc TAc n).values =
      vAdd (sMul 0.5 (vSub s.attitudes s.thresholds)) (sMul 0.5 (vSub s.TA s.thresholdsTA)) := by
  simp only [Individual.next_step]; split <;> split <;> rfl

theorem next_step_attitudes :
    (s.next_step t sc TAc n).attitudes = socialUpd s.phi_array s.attitudes sc := by
  simp only [Individual.next_step]; split <;> split <;> rfl

theorem next_step_pU :
    (s.next_step t sc TAc n).pU = socialUpd s.phi_array s.pU TAc.1 := by
  simp only [Individual.next_step]; split <;> split <;> rfl

theorem next_step_pC :
    (s.next_step t sc TAc n).pC = socialUpd s.phi_array s.pC TAc.2.1 := by
  simp only [Individual.next_step]; split <;> split <;> rfl

theorem next_step_pR :
    (s.next_step t sc TAc n).pR = socialUpd s.phi_array s.pR TAc.2.2 := by
  simp only [Individual.next_step]; split <;> split <;> rfl

theorem next_step_M : (s.next_step t sc TAc n).M = s.M := by
  simp only [Individual.next_step]; split <;> split <;> rfl

theorem next_step_t : (s.next_step t sc TAc n).t = t := by
  simp only [Individual.next_step]; split <;> split <;> rfl

theorem next_step_alpha_change : (s.next_step t sc TAc n).alpha_change = s.alpha_change := by
  simp only [Individual.next_step]; split <;> split <;> rfl

theorem next_step_phi_array : (s.next_step t sc TAc n).phi_array = s.phi_array := by
  simp only [Individual.next_step]; split <;> split <;> rfl

theorem next_step_normalized_discount_vector :
    (s.next_step t sc TAc n).normalized_discount_vector = s.normalized_discount_vector := by
  simp only [Individual.next_step]; split <;> split <;> rfl

theorem next_step_cultural_inertia :
    (s.next_step t sc TAc n).cultural_inertia = s.cultural_inertia := by
  simp only [Individual.next_step]; split <;> split <;> rfl

theorem next_step_save_timeseries_data :
    (s.next_step t sc TAc n).save_timeseries_data = s.save_timeseries_data := by
  simp only [Individual.next_step]; split <;> split <;> rfl

theorem next_step_compression_factor :
    (s.next_step t sc TAc n).compression_factor = s.compression_factor := by
  simp only [Individual.next_step]; split <;> split <;> rfl

theorem next_step_behavioural_carbon_emissions :
    (s.next_step t sc TAc n).behavioural_carbon_emissions =
      (List.range s.M).map (fun i => (1 - (s.next_step t sc TAc n).values.getD i 0) / 2) := by
  simp only [Individual.next_step]; split <;> split <;> rfl

theorem next_step_individual_carbon_emissions_flow :
    (s.next_step t sc TAc n).individual_carbon_emissions_flow =
      (s.next_step t sc TAc n).behavioural_carbon_emissions.sum := by
  simp only [Individual.next_step]; split <;> split <;> rfl

/- default-mode projections -/

theorem next_step_thresholds_default (h : s.alpha_change ≠ "behavioural_independence") :
    (s.next_step t sc TAc n).thresholds =
      s.thresholds.mapIdx (fun i x => clip01 (x + n.delta_thresholds i)) := by
  simp only [Individual.next_step, update_values_alpha_change, update_attitudes_alpha_change,
    update_pU_alpha_change, update_pC_alpha_change, update_pR_alpha_change]
  simp only [if_neg h]
  split <;> rfl

theorem next_step_thresholdspU_default (h : s.alpha_change ≠ "behavioural_independence") :
    (s.next_step t sc TAc n).thresholdspU =
      s.thresholdspU.map (fun x => clip01 (x + n.delta_TA0)) := by
  simp only [Individual.next_step, update_values_alpha_change, update_attitudes_alpha_change,
    update_pU_alpha_change, update_pC_alpha_change, update_pR_alpha_change]
  simp only [if_neg h]
  split <;> rfl

variable (s : Individual) (t : ℤ) (sc : List ℚ) (TAc : List ℚ × List ℚ × List ℚ) (n : StepNoise)

theorem next_step_thresholdspC_default (h : s.alpha_change ≠ "behavioural_independence") :
    (s.next_step t sc TAc n).thresholdspC =
      s.thresholdspC.map (fun x => clip01 (x + n.delta_TA1)) := by
  simp only [Individual.next_step, update_values_alpha_change, update_attitudes_alpha_change,
    update_pU_alpha_change, update_pC_alpha_change, update_pR_alpha_change]
  simp only [if_neg h]; split <;> rfl

theorem next_step_thresholdspR_default (h : s.alpha_change ≠ "behavioural_independence") :
    (s.next_step t sc TAc n).thresholdspR =
      s.thresholdspR.map (fun x => clip01 (x + n.delta_TA2)) := by
  simp only [Individual.next_step, update_values_alpha_change, update_attitudes_alpha_change,
    update_pU_alpha_change, update_pC_alpha_change, update_pR_alpha_change]
  simp only [if_neg h]; split <;> rfl

theorem next_step_av_behaviour_default (h : s.alpha_change ≠ "behavioural_independence") :
    (s.next_step t sc TAc n).av_behaviour = meanSqGap (socialUpd s.phi_array s.attitudes sc) := by
  simp only [Individual.next_step, update_values_alpha_change, update_attitudes_alpha_change,
    update_pU_alpha_change, update_pC_alpha_change, update_pR_alpha_change]
  simp only [if_neg h]; split <;> rfl

theorem next_step_av_behaviour_list_default (h : s.alpha_change ≠ "behavioural_independence") :
    (s.next_step t sc TAc n).av_behaviour_list =
      meanSqGap (socialUpd s.phi_array s.attitudes sc) :: s.av_behaviour_list.dropLast := by
  simp only [Individual.next_step, update_values_alpha_change, update_attitudes_alpha_change,
    update_pU_alpha_change, update_pC_alpha_change, update_pR_alpha_change]
  simp only [if_neg h]; split <;> rfl

theorem next_step_identity_default (h : s.alpha_change ≠ "behavioural_independence") :
    (s.next_step t sc TAc n).identity =
      dotQ s.normalized_discount_vector
        (meanSqGap (socialUpd s.phi_array s.attitudes sc) :: s.av_behaviour_list.dropLast) := by
  simp only [Individual.next_step, update_values_alpha_change, update_attitudes_alpha_change,
    update_pU_alpha_change, update_pC_alpha_change, update_pR_alpha_change]
  simp only [if_neg h]; split <;> rfl

theorem next_step_thresholds_bi (h : s.alpha_change = "behavioural_independence") :
    (s.next_step t sc TAc n).thresholds = s.thresholds := by
  simp only [Individual.next_step, update_values_alpha_change, update_attitudes_alpha_change,
    update_pU_alpha_change, update_pC_alpha_change, update_pR_alpha_change]
  simp only [if_pos h]; split <;> rfl

theorem next_step_thresholdspU_bi (h : s.alpha_change = "behavioural_independence") :
    (s.next_step t sc TAc n).thresholdspU = s.thresholdspU := by
  simp only [Individual.next_step, update_values_alpha_change, update_attitudes_alpha_change,
    update_pU_alpha_change, update_pC_alpha_change, update_pR_alpha_change]
  simp only [if_pos h]; split <;> rfl

theorem next_step_thresholdspC_bi (h : s.alpha_change = "behavioural_independence") :
    (s.next_step t sc TAc n).thresholdspC = s.thresholdspC := by
  simp only [Individual.next_step, update_values_alpha_change, update_attitudes_alpha_change,
    update_pU_alpha_change, update_pC_alpha_change, update_pR_alpha_change]
  simp only [if_pos h]; split <;> rfl

theorem next_step_thresholdspR_bi (h : s.alpha_change = "behavioural_independence") :
    (s.next_step t sc TAc n).thresholdspR = s.thresholdspR := by
  simp only [Individual.next_step, update_values_alpha_change, update_attitudes_alpha_change,
    update_pU_alpha_change, update_pC_alpha_change, update_pR_alpha_change]
  simp only [if_pos h]; split <;> rfl

theorem next_step_av_behaviour_bi (h : s.alpha_change = "behavioural_independence") :
    (s.next_step t sc TAc n).av_behaviour = s.av_behaviour := by
  simp only [Individual.next_step, update_values_alpha_change, update_attitudes_alpha_change,
    update_pU_alpha_change, update_pC_alpha_change, update_pR_alpha_change]
  simp only [if_pos h]; split <;> rfl

theorem next_step_av_behaviour_list_bi (h : s.alpha_change = "behavioural_independence") :
    (s.next_step t sc TAc n).av_behaviour_list = s.av_behaviour_list := by
  simp only [Individual.next_step, update_values_alpha_change, update_attitudes_alpha_change,
    update_pU_alpha_change, update_pC_alpha_change, update_pR_alpha_change]
  simp only [if_pos h]; split <;> rfl

theorem next_step_identity_bi (h : s.alpha_change = "behavioural_independence") :
    (s.next_step t sc TAc n).identity = s.identity := by
  simp only [Individual.next_step, update_values_alpha_change, update_attitudes_alpha_change,
    update_pU_alpha_change, update_pC_alpha_change, update_pR_alpha_change]
  simp only [if_pos h]; split <;> rfl

theorem next_step_attitudes_matrix_bi (h : s.alpha_change = "behavioural_independence") :
    (s.next_step t sc TAc n).attitudes_matrix =
      socialUpd s.phi_array s.attitudes sc :: s.attitudes_matrix.dropLast := by
  simp only [Individual.next_step, update_values_alpha_change, update_attitudes_alpha_change,
    update_pU_alpha_change, update_pC_alpha_change, update_pR_alpha_change]
  simp only [if_pos h]; split <;> rfl

theorem next_step_attitudes_star_bi (h : s.alpha_change = "behavioural_independence") :
    (s.next_step t sc TAc n).attitudes_star =
      rowMatMul s.normalized_discount_vector
        (socialUpd s.phi_array s.attitudes sc :: s.attitudes_matrix.dropLast) := by
  simp only [Individual.next_step, update_values_alpha_change, update_attitudes_alpha_change,
    update_pU_alpha_change, update_pC_alpha_change, update_pR_alpha_change]
  simp only [if_pos h]; split <;> rfl

theorem next_step_history_thresholdsTA :
    (s.next_step t sc TAc n).history_thresholdsTA = s.history_thresholdsTA := by
  simp only [Individual.next_step]; split <;> split <;> rfl

theorem next_step_history_TA_saved (htel : s.save_timeseries_data = true)
    (hmod : t % s.compression_factor = 0) :
    (s.next_step t sc TAc n).history_TA = s.history_TA ++ [(s.next_step t sc TAc n).TA] := by
  simp only [Individual.next_step]; split <;> split <;> first | rfl | simp_all

theorem next_step_history_behaviour_values_saved (htel : s.save_timeseries_data = true)
    (hmod : t % s.compression_factor = 0) :
    (s.next_step t sc TAc n).history_behaviour_values =
      s.history_behaviour_values ++ [(s.next_step t sc TAc n).values] := by
  simp only [Individual.next_step]; split <;> split <;> first | rfl | simp_all

theorem next_step_history_behaviour_attitudes_saved (htel : s.save_timeseries_data = true)
    (hmod : t % s.compression_factor = 0) :
    (s.next_step t sc TAc n).history_behaviour_attitudes =
      s.history_behaviour_attitudes ++ [(s.next_step t sc TAc n).attitudes] := by
  simp only [Individual.next_step]; split <;> split <;> first | rfl | simp_all

theorem next_step_history_behaviour_thresholds_saved (htel : s.save_timeseries_data = true)
    (hmod : t % s.compression_factor = 0) :
    (s.next_step t sc TAc n).history_behaviour_thresholds =
      s.history_behaviour_thresholds ++ [(s.next_step t sc TAc n).thresholds] := by
  simp only [Individual.next_step]; split <;> split <;> first | rfl | simp_all

theorem next_step_history_identity_saved (htel : s.save_timeseries_data = true)
    (hmod : t % s.compression_factor = 0) :
    (s.next_step t sc TAc n).history_identity =
      s.history_identity ++ [(s.next_step t sc TAc n).identity] := by
  simp only [Individual.next_step]; split <;> split <;> first | rfl | simp_all

theorem next_step_history_av_behaviour_saved (htel : s.save_timeseries_data = true)
    (hmod : t % s.compression_factor = 0) :
    (s.next_step t sc TAc n).history_av_behaviour =
      s.history_av_behaviour ++ [(s.next_step t sc TAc n).av_behaviour] := by
  simp only [Individual.next_step]; split <;> split <;> first | rfl | simp_all

theorem next_step_history_individual_carbon_emissions_flow_saved (htel : s.save_timeseries_data = true)
    (hmod : t % s.compression_factor = 0) :
    (s.next_step t sc TAc n).history_individual_carbon_emissions_flow =
      s.history_individual_carbon_emissions_flow ++ [(s.next_step t sc TAc n).individual_carbon_emissions_flow] := by
  simp only [Individual.next_step]; split <;> split <;> first | rfl | simp_all

theorem next_step_history_behavioural_carbon_emissions_saved (htel : s.save_timeseries_data = true)
    (hmod : t % s.compression_factor = 0) :
    (s.next_step t sc TAc n).history_behavioural_carbon_emissions =
      s.history_behavioural_carbon_emissions ++ [(s.next_step t sc TAc n).behavioural_carbon_emissions] := by
  simp only [Individual.next_step]; split <;> split <;> first | rfl | simp_all

end Individual

/-- numpy broadcasting for a binary elementwise operation on two 1-D arrays:
equal lengths combine pointwise, a length-1 operand is broadcast across the
other, and any other length mismatch raises a `ValueError` (`none`). -/
def npBroadcast (f : ℚ → ℚ → ℚ) (a b : List ℚ) : Option (List ℚ) :=
  if a.length = b.length then some (List.zipWith f a b)
  else if a.length = 1 then some (b.map (f (a.headD 0)))
  else if b.length = 1 then some (a.map (fun x => f x (b.headD 0)))
  else none

/-- `np.matmul` on two 1-D arrays with numpy's shape rule: the contracted
lengths must match exactly (`matmul` does not broadcast its core dimensions),
otherwise a `ValueError` is raised (`none`). -/
def npMatmul1d (v w : List ℚ) : Option ℚ :=
  if v.length = w.length then some (dotQ v w) else none

/-- The shared social-learning line `(1 - phi) * old + phi * influence` with
full numpy 1-D broadcasting semantics: each binary array operation may
broadcast a length-1 operand or raise. -/
def socialUpdNp (phi old influence : List ℚ) : Option (List ℚ) := do
  let selfpart ← npBroadcast (fun p a => (1 - p) * a) phi old
  let socialpart ← npBroadcast (· * ·) phi influence
  npBroadcast (· + ·) selfpart socialpart

/-- `update_attitudes` with full numpy 1-D broadcasting semantics.  Used to
settle what happens when `social_component`'s length disagrees with `M`. -/
def Individual.update_attitudes_np (social_component : List ℚ) (s : Individual) :
    Option (List ℚ) :=
  socialUpdNp s.phi_array s.attitudes social_component

/-- `update_pU` with full numpy 1-D broadcasting semantics. -/
def Individual.update_pU_np (social_component : List ℚ) (s : Individual) :
    Option (List ℚ) :=
  socialUpdNp s.phi_array s.pU social_component

/-- `update_pC` with full numpy 1-D broadcasting semantics. -/
def Individual.update_pC_np (TA_component : List ℚ) (s : Individual) :
    Option (List ℚ) :=
  socialUpdNp s.phi_array s.pC TA_component

/-- `update_pR` with full numpy 1-D broadcasting semantics. -/
def Individual.update_pR_np (TA_component : List ℚ) (s : Individual) :
    Option (List ℚ) :=
  socialUpdNp s.phi_array s.pR TA_component

/-- Drive one agent through `k` consecutive `next_step` calls, the step inputs
being given as streams indexed by the number of steps already taken. -/
def Individual.run_steps (ts : ℕ → ℤ) (scs : ℕ → List ℚ)
    (TAs : ℕ → List ℚ × List ℚ × List ℚ) (ns : ℕ → StepNoise) :
    ℕ → Individual → Individual
  | 0, s => s
  | k + 1, s =>
      (Individual.run_steps ts scs TAs ns k s).next_step (ts k) (scs k) (TAs k) (ns k)

/-- The `av_behaviour` value pushed into the window by the `k`-th step of a
run: the mean squared gap of the attitudes as updated by that step. -/
def stepHead (ts : ℕ → ℤ) (scs : ℕ → List ℚ) (TAs : ℕ → List ℚ × List ℚ × List ℚ)
    (ns : ℕ → StepNoise) (s : Individual) (k : ℕ) : ℚ :=
  meanSqGap (socialUpd (Individual.run_steps ts scs TAs ns k s).phi_array
    (Individual.run_steps ts scs TAs ns k s).attitudes (scs k))

/-- The heads pushed by the first `k` steps of a run, most recent first. -/
def revHeads (ts : ℕ → ℤ) (scs : ℕ → List ℚ) (TAs : ℕ → List ℚ × List ℚ × List ℚ)
    (ns : ℕ → StepNoise) (s : Individual) : ℕ → List ℚ
  | 0 => []
  | k + 1 => stepHead ts scs TAs ns s k :: revHeads ts scs TAs ns s k

/-- The zero draw, used to instantiate noise in concrete witnesses. -/
def zeroNoise : StepNoise :=
  { delta_thresholds := fun _ => 0, delta_TA0 := 0, delta_TA1 := 0, delta_TA2 := 0 }

/-- The concrete default-mode scenario of the spec: `M = 1`,
`attitudes = [0.6]`, `thresholds = [0.2]`, `phi_array = [0.0]`,
`pU = pC = pR = [0]` with zero TA thresholds, discount vector `[1.0]`,
`cultural_inertia = 1`. -/
def defaultScenarioState : Individual :=
  Individual.init
    { M := 1, t := 0, save_timeseries_data := false, compression_factor := 1,
      phi_array := [0], alpha_change := "default" }
    [3/5] [1/5] [1] 1 [0] [0] [0] [0] [0] [0] 0

/-- The same concrete scenario with telemetry enabled. -/
def savingScenarioState : Individual :=
  Individual.init
    { M := 1, t := 0, save_timeseries_data := true, compression_factor := 1,
      phi_array := [0], alpha_change := "default" }
    [3/5] [1/5] [1] 1 [0] [0] [0] [0] [0] [0] 0

/-- A concrete agent in `behavioural_independence` mode, `M = 1`,
`cultural_inertia = 2`. -/
def indepScenarioState : Individual :=
  Individual.init
    { M := 1, t := 0, save_timeseries_data := false, compression_factor := 1,
      phi_array := [1/2], alpha_change := "behavioural_independence" }
    [3/5] [1/5] [1/2, 1/2] 2 [0] [0] [0] [0] [0] [0] 0

/-- A concrete agent whose TA-threshold draw `[2]` lies outside `[0,1]`:
the constructor accepts it unchecked. -/
def outOfRangeState : Individual :=
  Individual.init
    { M := 1, t := 0, save_timeseries_data := false, compression_factor := 1,
      phi_array := [0], alpha_change := "default" }
    [3/5] [1/5] [1] 1 [0] [0] [0] [2] [0] [0] 0

/-- A concrete agent with `phi_array = [1]` (full social susceptibility). -/
def fullSusceptibilityState : Individual :=
  Individual.init
    { M := 1, t := 0, save_timeseries_data := false, compression_factor := 1,
      phi_array := [1], alpha_change := "default" }
    [3/5] [1/5] [1] 1 [0] [0] [0] [0] [0] [0] 0

/-- A concrete agent with `M = 2` used to exercise shape-mismatched step
inputs. -/
def broadcastState : Individual :=
  Individual.init
    { M := 2, t := 0, save_timeseries_data := false, compression_factor := 1,
      phi_array := [1/2, 1/2], alpha_change := "default" }
    [1/2, 1/2] [1/5, 1/5] [1] 1 [0, 0] [0, 0] [0, 0] [0, 0] [0, 0] [0, 0] 0

theorem foldl_min_le (l : List ℚ) (a : ℚ) : l.foldl min a ≤ a := by
  induction l generalizing a with
  | nil => simp
  | cons x xs ih => exact le_trans (ih (min a x)) (min_le_left a x)

theorem foldl_min_le_of_mem {l : List ℚ} {b : ℚ} (a : ℚ) (hb : b ∈ l) :
    l.foldl min a ≤ b := by
  induction l generalizing a with
  | nil => cases hb
  | cons x xs ih =>
    rcases List.mem_cons.1 hb with h | h
    · subst h
      exact le_trans (foldl_min_le xs (min a b)) (min_le_right a b)
    · exact ih (min a x) h

theorem minD_le_of_mem {l : List ℚ} {b : ℚ} (hb : b ∈ l) : minD l ≤ b := by
  cases l with
  | nil => cases hb
  | cons x xs =>
    rcases List.mem_cons.1 hb with h | h
    · subst h; exact foldl_min_le xs b
    · exact foldl_min_le_of_mem x h

theorem le_foldl_max (l : List ℚ) (a : ℚ) : a ≤ l.foldl max a := by
  induction l generalizing a with
  | nil => simp
  | cons x xs ih => exact le_trans (le_max_left a x) (ih (max a x))

theorem le_foldl_max_of_mem {l : List ℚ} {b : ℚ} (a : ℚ) (hb : b ∈ l) :
    b ≤ l.foldl max a := by
  induction l generalizing a with
  | nil => cases hb
  | cons x xs ih =>
    rcases List.mem_cons.1 hb with h | h
    · subst h
      exact le_trans (le_max_right a b) (le_foldl_max xs (max a b))
    · exact ih (max a x) h

theorem le_maxD_of_mem {l : List ℚ} {b : ℚ} (hb : b ∈ l) : b ≤ maxD l := by
  cases l with
  | nil => cases hb
  | cons x xs =>
    rcases List.mem_cons.1 hb with h | h
    · subst h; exact le_foldl_max xs b
    · exact le_foldl_max_of_mem x h

theorem mul_sum_le_dotQ (w x : List ℚ) (c : ℚ) (hlen : w.length = x.length)
    (hw : ∀ a ∈ w, 0 ≤ a) (hx : ∀ b ∈ x, c ≤ b) : c * w.sum ≤ dotQ w x := by
  induction w generalizing x with
  | nil => simp [dotQ]
  | cons a w' ih =>
    cases x with
    | nil => simp at hlen
    | cons b x' =>
      have ha : 0 ≤ a := hw a (List.mem_cons_self a w')
      have hw' : ∀ q ∈ w', 0 ≤ q := fun q hq => hw q (List.mem_cons_of_mem a hq)
      have hx' : ∀ q ∈ x', c ≤ q := fun q hq => hx q (List.mem_cons_of_mem b hq)
      have hab : c * a ≤ a * b := by
        have : a * c ≤ a * b :=
          mul_le_mul_of_nonneg_left (hx b (List.mem_cons_self b x')) ha
        linarith
      have := ih x' (by simpa using hlen) hw' hx'
      simp only [dotQ, List.zipWith_cons_cons, List.sum_cons, List.sum_cons] at *
      calc c * (a + w'.sum) = c * a + c * w'.sum := by ring
        _ ≤ a * b + dotQ w' x' := add_le_add hab this
        _ = a * b + (List.zipWith (· * ·) w' x').sum := by rfl

theorem dotQ_le_mul_sum (w x : List ℚ) (C : ℚ) (hlen : w.length = x.length)
    (hw : ∀ a ∈ w, 0 ≤ a) (hx : ∀ b ∈ x, b ≤ C) : dotQ w x ≤ C * w.sum := by
  induction w generalizing x with
  | nil => simp [dotQ]
  | cons a w' ih =>
    cases x with
    | nil => simp at hlen
    | cons b x' =>
      have ha : 0 ≤ a := hw a (List.mem_cons_self a w')
      have hw' : ∀ q ∈ w', 0 ≤ q := fun q hq => hw q (List.mem_cons_of_mem a hq)
      have hx' : ∀ q ∈ x', q ≤ C := fun q hq => hx q (List.mem_cons_of_mem b hq)
      have hab : a * b ≤ C * a := by
        have : a * b ≤ a * C :=
          mul_le_mul_of_nonneg_left (hx b (List.mem_cons_self b x')) ha
        linarith
      have := ih x' (by simpa using hlen) hw' hx'
      simp only [dotQ, List.zipWith_cons_cons, List.sum_cons] at *
      calc a * b + (List.zipWith (· * ·) w' x').sum ≤ C * a + C * w'.sum :=
            add_le_add hab this
        _ = C * (a + w'.sum) := by ring

/-- A dot product against non-negative weights summing to one is a convex
combination: it lies between the minimum and maximum of the other list. -/
theorem dotQ_convex (w x : List ℚ) (hlen : w.length = x.length)
    (hw : ∀ a ∈ w, 0 ≤ a) (hsum : w.sum = 1) (hx : x ≠ []) :
    minD x ≤ dotQ w x ∧ dotQ w x ≤ maxD x := by
  constructor
  · have := mul_sum_le_dotQ w x (minD x) hlen hw (fun b hb => minD_le_of_mem hb)
    rwa [hsum, mul_one] at this
  · have := dotQ_le_mul_sum w x (maxD x) hlen hw (fun b hb => le_maxD_of_mem hb)
    rwa [hsum, mul_one] at this


/-! ## Claims -/

/-- C1 -/
theorem claim_C1 (noise : StepNoise) :
    ((defaultScenarioState).next_step 1 [0] ([0], [0], [0]) noise).values = [1/5] ∧
    ((defaultScenarioState).next_step 1 [0] ([0], [0], [0]) noise).attitudes = [3/5] ∧
    ((defaultScenarioState).next_step 1 [0] ([0], [0], [0]) noise).behavioural_carbon_emissions = [2/5] ∧
    ((defaultScenarioState).next_step 1 [0] ([0], [0], [0]) noise).individual_carbon_emissions_flow = 2/5 := by
  have ha : defaultScenarioState.attitudes = [3/5] := rfl
  have ht : defaultScenarioState.thresholds = [1/5] := rfl
  have hpU : defaultScenarioState.pU = [0] := rfl
  have hpC : defaultScenarioState.pC = [0] := rfl
  have hpR : defaultScenarioState.pR = [0] := rfl
  have htU : defaultScenarioState.thresholdspU = [0] := rfl
  have htC : defaultScenarioState.thresholdspC = [0] := rfl
  have htR : defaultScenarioState.thresholdspR = [0] := rfl
  have hphi : defaultScenarioState.phi_array = [0] := rfl
  have hM : defaultScenarioState.M = 1 := rfl
  have hval : ((defaultScenarioState).next_step 1 [0] ([0], [0], [0]) noise).values = [1/5] := by
    rw [Individual.next_step_values]
    simp only [Individual.TA, Individual.thresholdsTA, ha, ht, hpU, hpC, hpR, htU, htC, htR]
    norm_num [vAdd, vSub, sMul]
  refine ⟨hval, ?_, ?_, ?_⟩
  · rw [Individual.next_step_attitudes]
    simp only [ha, hphi]
    norm_num [socialUpd, vAdd, vSub, sMul]
  · rw [Individual.next_step_behavioural_carbon_emissions, hval, hM]
    norm_num [List.range_succ]
  · rw [Individual.next_step_individual_carbon_emissions_flow,
      Individual.next_step_behavioural_carbon_emissions, hval, hM]
    norm_num [List.range_succ]

theorem getD_map_range (f : ℕ → ℚ) {n j : ℕ} (hj : j < n) :
    (((List.range n).map f).getD j 0) = f j := by
  rw [List.getD_eq_getElem?_getD, List.getElem?_map, List.getElem?_range hj]
  rfl

/-- C6 -/
theorem claim_C6 (s : Individual) (t : ℤ) (sc : List ℚ)
    (TAc : List ℚ × List ℚ × List ℚ) (n : StepNoise) :
    (∀ i, i < (s.next_step t sc TAc n).M →
      (s.next_step t sc TAc n).behavioural_carbon_emissions.getD i 0 =
        (1 - (s.next_step t sc TAc n).values.getD i 0) / 2) ∧
    (s.next_step t sc TAc n).individual_carbon_emissions_flow =
      (s.next_step t sc TAc n).behavioural_carbon_emissions.sum := by
  refine ⟨fun i hi => ?_, Individual.next_step_individual_carbon_emissions_flow s t sc TAc n⟩
  rw [Individual.next_step_M] at hi
  rw [Individual.next_step_behavioural_carbon_emissions, getD_map_range _ hi]

/-- C6 witness -/
theorem claim_C6_witness :
    (0 < (defaultScenarioState.next_step 1 [0] ([0], [0], [0]) zeroNoise).M) ∧
    (defaultScenarioState.next_step 1 [0] ([0], [0], [0]) zeroNoise).behavioural_carbon_emissions.getD 0 0 =
      (1 - (defaultScenarioState.next_step 1 [0] ([0], [0], [0]) zeroNoise).values.getD 0 0) / 2 :=
  ⟨Nat.lt_of_lt_of_eq Nat.zero_lt_one (Individual.next_step_M defaultScenarioState 1 [0] ([0], [0], [0]) zeroNoise).symm,
   (claim_C6 defaultScenarioState 1 [0] ([0], [0], [0]) zeroNoise).1 0
     (Nat.lt_of_lt_of_eq Nat.zero_lt_one (Individual.next_step_M defaultScenarioState 1 [0] ([0], [0], [0]) zeroNoise).symm)⟩

theorem rowMatMul_getD (d : List ℚ) (m : List (List ℚ)) {j : ℕ}
    (hj : j < (m.headD []).length) :
    (rowMatMul d m).getD j 0 = dotQ d (m.map (fun r => r.getD j 0)) := by
  rw [rowMatMul]; exact getD_map_range _ hj

theorem clip01_nonneg (x : ℚ) : 0 ≤ clip01 x := le_max_left 0 (min x 1)

theorem clip01_le_one (x : ℚ) : clip01 x ≤ 1 :=
  max_le zero_le_one (min_le_right x 1)

theorem socialUpd_all_one (phi old influence : List ℚ) (hphi : ∀ p ∈ phi, p = 1)
    (h1 : phi.length = old.length) (h2 : old.length = influence.length) :
    socialUpd phi old influence = influence := by
  induction phi generalizing old influence with
  | nil =>
    cases old with
    | nil =>
      cases influence with
      | nil => rfl
      | cons b bs => simp at h2
    | cons a as => simp at h1
  | cons p phi' ih =>
    cases old with
    | nil => simp at h1
    | cons a as =>
      cases influence with
      | nil => simp at h2
      | cons b bs =>
        have hp : p = 1 := hphi p (List.mem_cons_self p phi')
        have hrest : socialUpd phi' as bs = bs :=
          ih as bs (fun q hq => hphi q (List.mem_cons_of_mem p hq))
            (by simpa using h1) (by simpa using h2)
        simp only [socialUpd, vAdd, List.zipWith_cons_cons] at *
        rw [hrest, hp]
        norm_num

/-- C2: in default mode, with non-negative discount weights summing to 1 and
a well-formed window, the identity written by a step is a convex combination
of the entries of the step's new `av_behaviour_list` window: it lies between
that window's minimum and maximum. -/
theorem claim_C2 (s : Individual) (t : ℤ) (sc : List ℚ)
    (TAc : List ℚ × List ℚ × List ℚ) (n : StepNoise)
    (hmode : s.alpha_change ≠ "behavioural_independence")
    (hw : ∀ w ∈ s.normalized_discount_vector, 0 ≤ w)
    (hsum : s.normalized_discount_vector.sum = 1)
    (hlen : s.normalized_discount_vector.length = s.av_behaviour_list.length)
    (hne : s.av_behaviour_list ≠ []) :
    minD (s.next_step t sc TAc n).av_behaviour_list ≤ (s.next_step t sc TAc n).identity ∧
    (s.next_step t sc TAc n).identity ≤ maxD (s.next_step t sc TAc n).av_behaviour_list := by
  rw [Individual.next_step_identity_default s t sc TAc n hmode,
    Individual.next_step_av_behaviour_list_default s t sc TAc n hmode]
  apply dotQ_convex
  · rw [hlen, List.length_cons, List.length_dropLast,
      Nat.sub_add_cancel (Nat.one_le_iff_ne_zero.2 (by simpa [List.length_eq_zero] using hne))]
  · exact hw
  · exact hsum
  · simp

/-- C2 witness -/
theorem claim_C2_witness :
    minD (defaultScenarioState.next_step 1 [0] ([0], [0], [0]) zeroNoise).av_behaviour_list ≤
      (defaultScenarioState.next_step 1 [0] ([0], [0], [0]) zeroNoise).identity ∧
    (defaultScenarioState.next_step 1 [0] ([0], [0], [0]) zeroNoise).identity ≤
      maxD (defaultScenarioState.next_step 1 [0] ([0], [0], [0]) zeroNoise).av_behaviour_list := by
  have endv : defaultScenarioState.normalized_discount_vector = [1] := rfl
  have elist : defaultScenarioState.av_behaviour_list = [meanSqGap [3/5]] := rfl
  exact claim_C2 defaultScenarioState 1 [0] ([0], [0], [0]) zeroNoise
    (by decide)
    (by rw [endv]; intro w hw; rw [List.mem_singleton] at hw; subst hw; norm_num)
    (by rw [endv]; simp)
    rfl
    (by rw [elist]; simp)

/-- C4 counterexample: a single call to `update_thresholds` leaves a
pre-existing out-of-range `thresholdspU` entry untouched, so it is not the
case that after any one threshold-update call all four threshold families
lie in `[0,1]` for every prior state. -/
theorem claim_C4_counterexample :
    ¬ (∀ x ∈ (outOfRangeState.update_thresholds (fun _ => 0)).thresholdspU,
        0 ≤ x ∧ x ≤ 1) := by
  intro h
  have he : (outOfRangeState.update_thresholds (fun _ => 0)).thresholdspU = [2] := rfl
  have hmem : (2 : ℚ) ∈ (outOfRangeState.update_thresholds (fun _ => 0)).thresholdspU := by
    rw [he]; exact List.mem_singleton.2 rfl
  have := (h 2 hmem).2
  norm_num at this

/-- C4 (amended): `update_thresholds` clips every element of `thresholds`
into `[0,1]`, `update_thresholdTA` clips every element of `thresholdspU`,
`thresholdspC`, `thresholdspR` into `[0,1]`, and after both calls in
sequence all four families lie in `[0,1]` — for every prior state and every
noise draw. -/
theorem claim_C4_amended (s : Individual) (d : ℕ → ℚ) (d0 d1 d2 : ℚ) :
    (∀ x ∈ (s.update_thresholds d).thresholds, 0 ≤ x ∧ x ≤ 1) ∧
    (∀ x ∈ (s.update_thresholdTA d0 d1 d2).thresholdspU, 0 ≤ x ∧ x ≤ 1) ∧
    (∀ x ∈ (s.update_thresholdTA d0 d1 d2).thresholdspC, 0 ≤ x ∧ x ≤ 1) ∧
    (∀ x ∈ (s.update_thresholdTA d0 d1 d2).thresholdspR, 0 ≤ x ∧ x ≤ 1) ∧
    (∀ x ∈ ((s.update_thresholds d).update_thresholdTA d0 d1 d2).thresholds, 0 ≤ x ∧ x ≤ 1) ∧
    (∀ x ∈ ((s.update_thresholds d).update_thresholdTA d0 d1 d2).thresholdspU, 0 ≤ x ∧ x ≤ 1) ∧
    (∀ x ∈ ((s.update_thresholds d).update_thresholdTA d0 d1 d2).thresholdspC, 0 ≤ x ∧ x ≤ 1) ∧
    (∀ x ∈ ((s.update_thresholds d).update_thresholdTA d0 d1 d2).thresholdspR, 0 ≤ x ∧ x ≤ 1) := by
  have hthr : ∀ (u : Individual), ∀ x ∈ (u.update_thresholds d).thresholds, 0 ≤ x ∧ x ≤ 1 := by
    intro u x hx
    rw [show (u.update_thresholds d).thresholds
        = u.thresholds.mapIdx (fun i y => clip01 (y + d i)) from rfl,
      List.mapIdx_eq_enum_map] at hx
    rcases List.mem_map.1 hx with ⟨⟨i, y⟩, _, rfl⟩
    exact ⟨clip01_nonneg _, clip01_le_one _⟩
  have hmap : ∀ (l : List ℚ) (c : ℚ), ∀ x ∈ l.map (fun y => clip01 (y + c)), 0 ≤ x ∧ x ≤ 1 := by
    intro l c x hx
    rcases List.mem_map.1 hx with ⟨y, _, rfl⟩
    exact ⟨clip01_nonneg _, clip01_le_one _⟩
  refine ⟨hthr s, hmap _ _, hmap _ _, hmap _ _, ?_, hmap _ _, hmap _ _, hmap _ _⟩
  exact fun x hx => hthr s x hx

/-- C4 witness -/
theorem claim_C4_witness :
    0 ≤ clip01 ((1:ℚ)/5 + 0) ∧ clip01 ((1:ℚ)/5 + 0) ≤ 1 := by
  have he : (outOfRangeState.update_thresholds (fun _ => 0)).thresholds
      = List.mapIdx (fun i x => clip01 (x + 0)) [(1:ℚ)/5] := rfl
  have hmem : clip01 ((1:ℚ)/5 + 0) ∈ (outOfRangeState.update_thresholds (fun _ => 0)).thresholds := by
    rw [he, List.mapIdx_cons]
    exact List.mem_cons_self _ _
  exact (claim_C4_amended outOfRangeState (fun _ => 0) 0 0 0).1 _ hmem

/-- C5: in `behavioural_independence` mode a step leaves the four threshold
families, `av_behaviour`, the `av_behaviour_list` window and `identity`
untouched. -/
theorem claim_C5 (s : Individual) (t : ℤ) (sc : List ℚ)
    (TAc : List ℚ × List ℚ × List ℚ) (n : StepNoise)
    (hmode : s.alpha_change = "behavioural_independence") :
    (s.next_step t sc TAc n).thresholds = s.thresholds ∧
    (s.next_step t sc TAc n).thresholdspU = s.thresholdspU ∧
    (s.next_step t sc TAc n).thresholdspC = s.thresholdspC ∧
    (s.next_step t sc TAc n).thresholdspR = s.thresholdspR ∧
    (s.next_step t sc TAc n).av_behaviour = s.av_behaviour ∧
    (s.next_step t sc TAc n).av_behaviour_list = s.av_behaviour_list ∧
    (s.next_step t sc TAc n).identity = s.identity :=
  ⟨Individual.next_step_thresholds_bi s t sc TAc n hmode,
   Individual.next_step_thresholdspU_bi s t sc TAc n hmode,
   Individual.next_step_thresholdspC_bi s t sc TAc n hmode,
   Individual.next_step_thresholdspR_bi s t sc TAc n hmode,
   Individual.next_step_av_behaviour_bi s t sc TAc n hmode,
   Individual.next_step_av_behaviour_list_bi s t sc TAc n hmode,
   Individual.next_step_identity_bi s t sc TAc n hmode⟩

/-- C5 witness -/
theorem claim_C5_witness :
    (indepScenarioState.next_step 1 [0] ([0], [0], [0]) zeroNoise).thresholds
        = indepScenarioState.thresholds ∧
    (indepScenarioState.next_step 1 [0] ([0], [0], [0]) zeroNoise).thresholdspU
        = indepScenarioState.thresholdspU ∧
    (indepScenarioState.next_step 1 [0] ([0], [0], [0]) zeroNoise).thresholdspC
        = indepScenarioState.thresholdspC ∧
    (indepScenarioState.next_step 1 [0] ([0], [0], [0]) zeroNoise).thresholdspR
        = indepScenarioState.thresholdspR ∧
    (indepScenarioState.next_step 1 [0] ([0], [0], [0]) zeroNoise).av_behaviour
        = indepScenarioState.av_behaviour ∧
    (indepScenarioState.next_step 1 [0] ([0], [0], [0]) zeroNoise).av_behaviour_list
        = indepScenarioState.av_behaviour_list ∧
    (indepScenarioState.next_step 1 [0] ([0], [0], [0]) zeroNoise).identity
        = indepScenarioState.identity :=
  claim_C5 indepScenarioState 1 [0] ([0], [0], [0]) zeroNoise rfl

/-- C8: with an all-one `phi_array` (and consistent lengths) the
social-learning update replaces `attitudes` by `social_component`, both in
the bare `update_attitudes` call and across the whole step. -/
theorem claim_C8 (s : Individual) (t : ℤ) (sc : List ℚ)
    (TAc : List ℚ × List ℚ × List ℚ) (n : StepNoise)
    (hphi : ∀ p ∈ s.phi_array, p = 1)
    (h1 : s.phi_array.length = s.attitudes.length)
    (h2 : s.attitudes.length = sc.length) :
    (s.update_attitudes sc).attitudes = sc ∧
    (s.next_step t sc TAc n).attitudes = sc := by
  have hupd : socialUpd s.phi_array s.attitudes sc = sc :=
    socialUpd_all_one s.phi_array s.attitudes sc hphi h1 h2
  constructor
  · rw [show (s.update_attitudes sc).attitudes = socialUpd s.phi_array s.attitudes sc from rfl]
    exact hupd
  · rw [Individual.next_step_attitudes]
    exact hupd

/-- C8 witness -/
theorem claim_C8_witness :
    (fullSusceptibilityState.update_attitudes [9/10]).attitudes = [9/10] ∧
    (fullSusceptibilityState.next_step 1 [9/10] ([0], [0], [0]) zeroNoise).attitudes = [9/10] :=
  claim_C8 fullSusceptibilityState 1 [9/10] ([0], [0], [0]) zeroNoise
    (fun p hp => List.mem_singleton.1 hp) rfl rfl

/-- C10: in `behavioural_independence` mode, with non-negative discount
weights summing to 1 and a well-formed attitudes window, every component `j`
of the `attitudes_star` written by a step lies between the minimum and the
maximum of column `j` of the step's new `attitudes_matrix`. -/
theorem claim_C10 (s : Individual) (t : ℤ) (sc : List ℚ)
    (TAc : List ℚ × List ℚ × List ℚ) (n : StepNoise)
    (hmode : s.alpha_change = "behavioural_independence")
    (hw : ∀ w ∈ s.normalized_discount_vector, 0 ≤ w)
    (hsum : s.normalized_discount_vector.sum = 1)
    (hrows : s.normalized_discount_vector.length = s.attitudes_matrix.length)
    (hne : s.attitudes_matrix ≠ [])
    (hM : (socialUpd s.phi_array s.attitudes sc).length = s.M)
    (j : ℕ) (hj : j < s.M) :
    minD (((s.next_step t sc TAc n).attitudes_matrix).map (fun r => r.getD j 0)) ≤
      (s.next_step t sc TAc n).attitudes_star.getD j 0 ∧
    (s.next_step t sc TAc n).attitudes_star.getD j 0 ≤
      maxD (((s.next_step t sc TAc n).attitudes_matrix).map (fun r => r.getD j 0)) := by
  rw [Individual.next_step_attitudes_star_bi s t sc TAc n hmode,
    Individual.next_step_attitudes_matrix_bi s t sc TAc n hmode]
  rw [rowMatMul_getD _ _ (by simpa [hM] using hj)]
  apply dotQ_convex
  · rw [hrows, List.length_map, List.length_cons, List.length_dropLast,
      Nat.sub_add_cancel (Nat.one_le_iff_ne_zero.2 (by simpa [List.length_eq_zero] using hne))]
  · exact hw
  · exact hsum
  · simp

/-- C10 witness -/
theorem claim_C10_witness :
    minD (((indepScenarioState.next_step 1 [0] ([0], [0], [0]) zeroNoise).attitudes_matrix).map
        (fun r => r.getD 0 0)) ≤
      (indepScenarioState.next_step 1 [0] ([0], [0], [0]) zeroNoise).attitudes_star.getD 0 0 ∧
    (indepScenarioState.next_step 1 [0] ([0], [0], [0]) zeroNoise).attitudes_star.getD 0 0 ≤
      maxD (((indepScenarioState.next_step 1 [0] ([0], [0], [0]) zeroNoise).attitudes_matrix).map
        (fun r => r.getD 0 0)) := by
  have endv : indepScenarioState.normalized_discount_vector = [1/2, 1/2] := rfl
  have emat : indepScenarioState.attitudes_matrix = [[3/5], [3/5]] := rfl
  refine claim_C10 indepScenarioState 1 [0] ([0], [0], [0]) zeroNoise rfl ?_ ?_ rfl ?_ rfl 0 ?_
  · rw [endv]; intro w hw
    rcases List.mem_cons.1 hw with h | h
    · subst h; norm_num
    · rw [List.mem_singleton] at h; subst h; norm_num
  · rw [endv]; norm_num
  · rw [emat]; simp
  · rw [show indepScenarioState.M = 1 from rfl]; exact Nat.zero_lt_one

/-- C3 (code-level behaviour): on a telemetry step (`save_timeseries_data`
set, `t` divisible by `compression_factor`), eight history logs each gain
exactly one entry holding the current value, but `history_thresholdsTA` is
left unchanged — `save_timeseries_data_individual` never appends to it. -/
theorem claim_C3_code_bug (s : Individual) (t : ℤ) (sc : List ℚ)
    (TAc : List ℚ × List ℚ × List ℚ) (n : StepNoise)
    (htel : s.save_timeseries_data = true)
    (hmod : t % s.compression_factor = 0) :
    (s.next_step t sc TAc n).history_thresholdsTA = s.history_thresholdsTA ∧
    (s.next_step t sc TAc n).history_behaviour_values
      = s.history_behaviour_values ++ [(s.next_step t sc TAc n).values] ∧
    (s.next_step t sc TAc n).history_behaviour_attitudes
      = s.history_behaviour_attitudes ++ [(s.next_step t sc TAc n).attitudes] ∧
    (s.next_step t sc TAc n).history_behaviour_thresholds
      = s.history_behaviour_thresholds ++ [(s.next_step t sc TAc n).thresholds] ∧
    (s.next_step t sc TAc n).history_TA
      = s.history_TA ++ [(s.next_step t sc TAc n).TA] ∧
    (s.next_step t sc TAc n).history_identity
      = s.history_identity ++ [(s.next_step t sc TAc n).identity] ∧
    (s.next_step t sc TAc n).history_av_behaviour
      = s.history_av_behaviour ++ [(s.next_step t sc TAc n).av_behaviour] ∧
    (s.next_step t sc TAc n).history_individual_carbon_emissions_flow
      = s.history_individual_carbon_emissions_flow
          ++ [(s.next_step t sc TAc n).individual_carbon_emissions_flow] ∧
    (s.next_step t sc TAc n).history_behavioural_carbon_emissions
      = s.history_behavioural_carbon_emissions
          ++ [(s.next_step t sc TAc n).behavioural_carbon_emissions] :=
  ⟨Individual.next_step_history_thresholdsTA s t sc TAc n,
   Individual.next_step_history_behaviour_values_saved s t sc TAc n htel hmod,
   Individual.next_step_history_behaviour_attitudes_saved s t sc TAc n htel hmod,
   Individual.next_step_history_behaviour_thresholds_saved s t sc TAc n htel hmod,
   Individual.next_step_history_TA_saved s t sc TAc n htel hmod,
   Individual.next_step_history_identity_saved s t sc TAc n htel hmod,
   Individual.next_step_history_av_behaviour_saved s t sc TAc n htel hmod,
   Individual.next_step_history_individual_carbon_emissions_flow_saved s t sc TAc n htel hmod,
   Individual.next_step_history_behavioural_carbon_emissions_saved s t sc TAc n htel hmod⟩

/-- C3 witness -/
theorem claim_C3_witness :
    (savingScenarioState.next_step 1 [0] ([0], [0], [0]) zeroNoise).history_thresholdsTA
      = savingScenarioState.history_thresholdsTA ∧
    (savingScenarioState.next_step 1 [0] ([0], [0], [0]) zeroNoise).history_TA
      = savingScenarioState.history_TA
          ++ [(savingScenarioState.next_step 1 [0] ([0], [0], [0]) zeroNoise).TA] := by
  have hmod : (1 : ℤ) % savingScenarioState.compression_factor = 0 := by
    rw [show savingScenarioState.compression_factor = 1 from rfl]
    decide
  exact ⟨(claim_C3_code_bug savingScenarioState 1 [0] ([0], [0], [0]) zeroNoise rfl hmod).1,
    (claim_C3_code_bug savingScenarioState 1 [0] ([0], [0], [0]) zeroNoise rfl hmod).2.2.2.2.1⟩

/-- C9 counterexample: with `M = 2`, the step-time input `[0.9]` has length
1 ≠ M, yet `update_attitudes` (numpy semantics) raises no error — it silently
broadcasts the single entry across both behaviors and returns a value. -/
theorem claim_C9_counterexample :
    ([(9:ℚ)/10].length ≠ broadcastState.M) ∧
    broadcastState.update_attitudes_np [9/10] = some [7/10, 7/10] := by
  constructor
  · rw [show broadcastState.M = 2 from rfl]; decide
  · have hphi : broadcastState.phi_array = [1/2, 1/2] := rfl
    have hatt : broadcastState.attitudes = [1/2, 1/2] := rfl
    rw [Individual.update_attitudes_np, hphi, hatt]
    norm_num [socialUpdNp, npBroadcast, Option.bind]

/-- Characterization of the numpy social-learning line on an influence input
of mismatched length: with `phi` and `old` of length `M ≥ 2` and an influence
of length ≠ M, the line raises unless the influence has length 1, in which
case the single entry is broadcast across the `M` behaviors. -/
theorem socialUpdNp_spec (phi old v : List ℚ) (M : ℕ)
    (hphi : phi.length = M) (hold : old.length = M)
    (hM : 2 ≤ M) (hv : v.length ≠ M) :
    (v.length ≠ 1 → socialUpdNp phi old v = none) ∧
    (v.length = 1 → socialUpdNp phi old v
        = some (vAdd (List.zipWith (fun p a => (1 - p) * a) phi old)
            (phi.map (fun x => x * v.headD 0)))) := by
  have hlen1 : phi.length = old.length := by rw [hphi, hold]
  have hlen2 : phi.length ≠ v.length := by rw [hphi]; exact fun h => hv h.symm
  have hphi1 : phi.length ≠ 1 := by rw [hphi]; omega
  constructor
  · intro hv1
    rw [socialUpdNp]
    rw [show npBroadcast (fun p a => (1 - p) * a) phi old
        = some (List.zipWith (fun p a => (1 - p) * a) phi old) from
      by rw [npBroadcast, if_pos hlen1]]
    rw [show npBroadcast (· * ·) phi v = none from
      by rw [npBroadcast, if_neg hlen2, if_neg hphi1, if_neg hv1]]
    rfl
  · intro hv1
    rw [socialUpdNp]
    rw [show npBroadcast (fun p a => (1 - p) * a) phi old
        = some (List.zipWith (fun p a => (1 - p) * a) phi old) from
      by rw [npBroadcast, if_pos hlen1]]
    rw [show npBroadcast (· * ·) phi v
        = some (phi.map (fun x => x * v.headD 0)) from
      by rw [npBroadcast, if_neg hlen2, if_neg hphi1, if_pos hv1]]
    have hfin : (List.zipWith (fun p a => (1 - p) * a) phi old).length
        = (phi.map (fun x => x * v.headD 0)).length := by
      simp [hlen1]
    change npBroadcast (· + ·)
        (List.zipWith (fun p a => (1 - p) * a) phi old)
        (phi.map (fun x => x * v.headD 0)) = _
    rw [npBroadcast, if_pos hfin]
    rfl

theorem init_normalized_discount_vector (params : IndividualParams)
    (a th d : List ℚ) (CI : ℕ) (ipU ipC ipR tU tC tR : List ℚ) (idn : ℤ) :
    (Individual.init params a th d CI ipU ipC ipR tU tC tR idn).normalized_discount_vector
      = d := by
  rw [Individual.init]
  split <;> first | rfl | (split <;> rfl)

theorem init_av_behaviour_list (params : IndividualParams)
    (a th d : List ℚ) (CI : ℕ) (ipU ipC ipR tU tC tR : List ℚ) (idn : ℤ) :
    (Individual.init params a th d CI ipU ipC ipR tU tC tR idn).av_behaviour_list
      = List.replicate CI (meanSqGap a) := by
  rw [Individual.init]
  split <;> first | rfl | (split <;> rfl)

/-- C9 (amended): shape handling follows numpy's rules exactly.
(i) At step time, for each of the four social-learning inputs
(`social_component` for attitudes, the three `TA_component` elements for
`pU`, `pC`, `pR`), when the agent's arrays have length `M ≥ 2` an input of
length ≠ M raises immediately unless its length is 1, in which case it is
silently broadcast across the `M` behaviors and absorbed.  (ii) The
constructor's `values = attitudes - thresholds` obeys the same rule on
mismatched initial draws.  (iii) At construction, a discount vector whose
length disagrees with `cultural_inertia` raises immediately inside
`np.matmul` in `calc_identity`, with no length-1 escape. -/
theorem claim_C9_amended :
    (∀ (s : Individual) (v : List ℚ),
      s.phi_array.length = s.M → 2 ≤ s.M → v.length ≠ s.M →
      ((s.attitudes.length = s.M →
          (v.length ≠ 1 → s.update_attitudes_np v = none) ∧
          (v.length = 1 → s.update_attitudes_np v
              = some (vAdd (List.zipWith (fun p a => (1 - p) * a) s.phi_array s.attitudes)
                  (s.phi_array.map (fun x => x * v.headD 0))))) ∧
       (s.pU.length = s.M →
          (v.length ≠ 1 → s.update_pU_np v = none) ∧
          (v.length = 1 → s.update_pU_np v
              = some (vAdd (List.zipWith (fun p a => (1 - p) * a) s.phi_array s.pU)
                  (s.phi_array.map (fun x => x * v.headD 0))))) ∧
       (s.pC.length = s.M →
          (v.length ≠ 1 → s.update_pC_np v = none) ∧
          (v.length = 1 → s.update_pC_np v
              = some (vAdd (List.zipWith (fun p a => (1 - p) * a) s.phi_array s.pC)
                  (s.phi_array.map (fun x => x * v.headD 0))))) ∧
       (s.pR.length = s.M →
          (v.length ≠ 1 → s.update_pR_np v = none) ∧
          (v.length = 1 → s.update_pR_np v
              = some (vAdd (List.zipWith (fun p a => (1 - p) * a) s.phi_array s.pR)
                  (s.phi_array.map (fun x => x * v.headD 0))))))) ∧
    (∀ (a th : List ℚ) (M : ℕ), a.length = M → 2 ≤ M → th.length ≠ M →
      (th.length ≠ 1 → npBroadcast (· - ·) a th = none) ∧
      (th.length = 1 → npBroadcast (· - ·) a th
          = some (a.map (fun x => x - th.headD 0)))) ∧
    (∀ (params : IndividualParams) (a th d : List ℚ) (CI : ℕ)
        (ipU ipC ipR tU tC tR : List ℚ) (idn : ℤ), d.length ≠ CI →
      npMatmul1d
        (Individual.init params a th d CI ipU ipC ipR tU tC tR idn).normalized_discount_vector
        (Individual.init params a th d CI ipU ipC ipR tU tC tR idn).av_behaviour_list
      = none) := by
  refine ⟨?_, ?_, ?_⟩
  · intro s v hphi hM hv
    exact ⟨fun hf => socialUpdNp_spec s.phi_array s.attitudes v s.M hphi hf hM hv,
           fun hf => socialUpdNp_spec s.phi_array s.pU v s.M hphi hf hM hv,
           fun hf => socialUpdNp_spec s.phi_array s.pC v s.M hphi hf hM hv,
           fun hf => socialUpdNp_spec s.phi_array s.pR v s.M hphi hf hM hv⟩
  · intro a th M ha hM hth
    have h1 : a.length ≠ th.length := by rw [ha]; exact fun h => hth h.symm
    have h2 : a.length ≠ 1 := by rw [ha]; omega
    constructor
    · intro hth1
      rw [npBroadcast, if_neg h1, if_neg h2, if_neg hth1]
    · intro hth1
      rw [npBroadcast, if_neg h1, if_neg h2, if_pos hth1]
  · intro params a th d CI ipU ipC ipR tU tC tR idn hd
    rw [init_normalized_discount_vector, init_av_behaviour_list, npMatmul1d,
      if_neg (show ¬(d.length = (List.replicate CI (meanSqGap a)).length) from
        by rw [List.length_replicate]; exact hd)]

/-- C9 witness -/
theorem claim_C9_witness :
    (broadcastState.update_attitudes_np [0, 0, 0] = none) ∧
    (broadcastState.update_attitudes_np [9/10]
        = some (vAdd (List.zipWith (fun p a => (1 - p) * a)
              broadcastState.phi_array broadcastState.attitudes)
            (broadcastState.phi_array.map (fun x => x * ([(9:ℚ)/10].headD 0))))) ∧
    (broadcastState.update_pU_np [9/10]
        = some (vAdd (List.zipWith (fun p a => (1 - p) * a)
              broadcastState.phi_array broadcastState.pU)
            (broadcastState.phi_array.map (fun x => x * ([(9:ℚ)/10].headD 0))))) ∧
    (npBroadcast (· - ·) [1/2, 1/2] [7]
        = some (([(1:ℚ)/2, 1/2]).map (fun x => x - ([(7:ℚ)].headD 0)))) ∧
    (npMatmul1d
        (Individual.init
          { M := 1, t := 0, save_timeseries_data := false, compression_factor := 1,
            phi_array := [0], alpha_change := "default" }
          [3/5] [1/5] [1, 1] 1 [0] [0] [0] [0] [0] [0] 0).normalized_discount_vector
        (Individual.init
          { M := 1, t := 0, save_timeseries_data := false, compression_factor := 1,
            phi_array := [0], alpha_change := "default" }
          [3/5] [1/5] [1, 1] 1 [0] [0] [0] [0] [0] [0] 0).av_behaviour_list
      = none) := by
  have hM : broadcastState.M = 2 := rfl
  refine ⟨?_, ?_, ?_, ?_, ?_⟩
  · exact ((claim_C9_amended.1 broadcastState [0, 0, 0] rfl (by rw [hM])
      (by rw [hM]; decide)).1 rfl).1 (by decide)
  · exact ((claim_C9_amended.1 broadcastState [9/10] rfl (by rw [hM])
      (by rw [hM]; decide)).1 rfl).2 rfl
  · exact ((claim_C9_amended.1 broadcastState [9/10] rfl (by rw [hM])
      (by rw [hM]; decide)).2.1 rfl).2 rfl
  · exact (claim_C9_amended.2.1 [1/2, 1/2] [7] 2 rfl (le_refl 2) (by decide)).2 rfl
  · exact claim_C9_amended.2.2
      { M := 1, t := 0, save_timeseries_data := false, compression_factor := 1,
        phi_array := [0], alpha_change := "default" }
      [3/5] [1/5] [1, 1] 1 [0] [0] [0] [0] [0] [0] 0 (by decide)

theorem run_steps_zero (ts : ℕ → ℤ) (scs : ℕ → List ℚ)
    (TAs : ℕ → List ℚ × List ℚ × List ℚ) (ns : ℕ → StepNoise) (s : Individual) :
    Individual.run_steps ts scs TAs ns 0 s = s := rfl

theorem run_steps_succ (ts : ℕ → ℤ) (scs : ℕ → List ℚ)
    (TAs : ℕ → List ℚ × List ℚ × List ℚ) (ns : ℕ → StepNoise) (s : Individual) (k : ℕ) :
    Individual.run_steps ts scs TAs ns (k + 1) s
      = (Individual.run_steps ts scs TAs ns k s).next_step (ts k) (scs k) (TAs k) (ns k) := rfl

theorem run_steps_phi_array (ts : ℕ → ℤ) (scs : ℕ → List ℚ)
    (TAs : ℕ → List ℚ × List ℚ × List ℚ) (ns : ℕ → StepNoise) (s : Individual) (k : ℕ) :
    (Individual.run_steps ts scs TAs ns k s).phi_array = s.phi_array := by
  induction k with
  | zero => rfl
  | succ k ih => rw [run_steps_succ, Individual.next_step_phi_array, ih]

theorem run_steps_alpha_change (ts : ℕ → ℤ) (scs : ℕ → List ℚ)
    (TAs : ℕ → List ℚ × List ℚ × List ℚ) (ns : ℕ → StepNoise) (s : Individual) (k : ℕ) :
    (Individual.run_steps ts scs TAs ns k s).alpha_change = s.alpha_change := by
  induction k with
  | zero => rfl
  | succ k ih => rw [run_steps_succ, Individual.next_step_alpha_change, ih]

theorem run_steps_attitudes_eq (ts : ℕ → ℤ) (scs : ℕ → List ℚ)
    (TAs : ℕ → List ℚ × List ℚ × List ℚ) (ns : ℕ → StepNoise) (s u : Individual)
    (hatt : s.attitudes = u.attitudes) (hphi : s.phi_array = u.phi_array) (k : ℕ) :
    (Individual.run_steps ts scs TAs ns k s).attitudes
      = (Individual.run_steps ts scs TAs ns k u).attitudes := by
  induction k with
  | zero => exact hatt
  | succ k ih =>
    rw [run_steps_succ, run_steps_succ, Individual.next_step_attitudes,
      Individual.next_step_attitudes, run_steps_phi_array, run_steps_phi_array, ih, hphi]

theorem revHeads_congr (ts : ℕ → ℤ) (scs : ℕ → List ℚ)
    (TAs : ℕ → List ℚ × List ℚ × List ℚ) (ns : ℕ → StepNoise) (s u : Individual)
    (hatt : s.attitudes = u.attitudes) (hphi : s.phi_array = u.phi_array) (k : ℕ) :
    revHeads ts scs TAs ns s k = revHeads ts scs TAs ns u k := by
  induction k with
  | zero => rfl
  | succ k ih =>
    rw [revHeads, revHeads, ih, stepHead, stepHead, run_steps_phi_array, run_steps_phi_array,
      run_steps_attitudes_eq ts scs TAs ns s u hatt hphi k, hphi]

theorem length_revHeads (ts : ℕ → ℤ) (scs : ℕ → List ℚ)
    (TAs : ℕ → List ℚ × List ℚ × List ℚ) (ns : ℕ → StepNoise) (s : Individual) (k : ℕ) :
    (revHeads ts scs TAs ns s k).length = k := by
  induction k with
  | zero => rfl
  | succ k ih => rw [revHeads, List.length_cons, ih]

theorem cons_dropLast_take (x : ℚ) (u : List ℚ) (L : ℕ) (h1 : 1 ≤ L) (h2 : L ≤ u.length) :
    x :: (u.take L).dropLast = (x :: u).take L := by
  rw [List.dropLast_eq_take, List.length_take, Nat.min_eq_left h2, List.take_take,
    Nat.min_eq_left (Nat.sub_le L 1)]
  cases L with
  | zero => cases h1
  | succ L' => rw [List.take_succ_cons, Nat.succ_sub_one]

/-- In default mode, the window after `N` steps is the first `L` entries of
the pushed heads (most recent first) followed by what is left of the initial
window, where `L` is the window length. -/
theorem run_steps_av_behaviour_list (ts : ℕ → ℤ) (scs : ℕ → List ℚ)
    (TAs : ℕ → List ℚ × List ℚ × List ℚ) (ns : ℕ → StepNoise) (s : Individual)
    (hmode : s.alpha_change ≠ "behavioural_independence")
    (hne : s.av_behaviour_list ≠ []) (N : ℕ) :
    (Individual.run_steps ts scs TAs ns N s).av_behaviour_list
      = ((revHeads ts scs TAs ns s N) ++ s.av_behaviour_list).take s.av_behaviour_list.length := by
  induction N with
  | zero => rw [run_steps_zero, revHeads, List.nil_append, List.take_length]
  | succ N ih =>
    have hmode' : (Individual.run_steps ts scs TAs ns N s).alpha_change
        ≠ "behavioural_independence" := by
      rw [run_steps_alpha_change]; exact hmode
    rw [run_steps_succ,
      Individual.next_step_av_behaviour_list_default _ (ts N) (scs N) (TAs N) (ns N) hmode',
      ih]
    rw [show meanSqGap (socialUpd (Individual.run_steps ts scs TAs ns N s).phi_array
        (Individual.run_steps ts scs TAs ns N s).attitudes (scs N))
      = stepHead ts scs TAs ns s N from rfl]
    have h1 : 1 ≤ s.av_behaviour_list.length :=
      Nat.one_le_iff_ne_zero.2 (by simpa [List.length_eq_zero] using hne)
    have h2 : s.av_behaviour_list.length
        ≤ (revHeads ts scs TAs ns s N ++ s.av_behaviour_list).length := by
      rw [List.length_append, length_revHeads]
      exact Nat.le_add_left _ _
    calc stepHead ts scs TAs ns s N ::
          (((revHeads ts scs TAs ns s N) ++ s.av_behaviour_list).take
            s.av_behaviour_list.length).dropLast
        = (stepHead ts scs TAs ns s N :: ((revHeads ts scs TAs ns s N)
            ++ s.av_behaviour_list)).take s.av_behaviour_list.length :=
          cons_dropLast_take _ _ _ h1 h2
      _ = ((revHeads ts scs TAs ns s (N + 1)) ++ s.av_behaviour_list).take
            s.av_behaviour_list.length := rfl

/-- C7: (i) construction seeds `av_behaviour_list` with exactly
`cultural_inertia` entries; (ii) every step on a non-empty window preserves
its length; (iii) after `N ≥ cultural_inertia` default-mode steps the window
no longer depends on its construction-time bootstrap content: two agents that
differ only in the initial window content have identical windows. -/
theorem claim_C7 :
    (∀ (params : IndividualParams) (a th d : List ℚ) (CI : ℕ)
        (ipU ipC ipR tU tC tR : List ℚ) (idn : ℤ),
      (Individual.init params a th d CI ipU ipC ipR tU tC tR idn).av_behaviour_list.length
        = CI) ∧
    (∀ (s : Individual) (t : ℤ) (sc : List ℚ) (TAc : List ℚ × List ℚ × List ℚ)
        (n : StepNoise), s.av_behaviour_list ≠ [] →
      (s.next_step t sc TAc n).av_behaviour_list.length = s.av_behaviour_list.length) ∧
    (∀ (s : Individual) (l' : List ℚ) (ts : ℕ → ℤ) (scs : ℕ → List ℚ)
        (TAs : ℕ → List ℚ × List ℚ × List ℚ) (ns : ℕ → StepNoise) (N : ℕ),
      s.alpha_change ≠ "behavioural_independence" →
      l'.length = s.av_behaviour_list.length →
      s.av_behaviour_list ≠ [] →
      s.av_behaviour_list.length ≤ N →
      (Individual.run_steps ts scs TAs ns N s).av_behaviour_list
        = (Individual.run_steps ts scs TAs ns N
            { s with av_behaviour_list := l' }).av_behaviour_list) := by
  refine ⟨?_, ?_, ?_⟩
  · intro params a th d CI ipU ipC ipR tU tC tR idn
    have he : (Individual.init params a th d CI ipU ipC ipR tU tC tR idn).av_behaviour_list
        = List.replicate CI (meanSqGap a) := by
      rw [Individual.init]
      split <;> first | rfl | (split <;> rfl)
    rw [he, List.length_replicate]
  · intro s t sc TAc n hne
    by_cases hm : s.alpha_change = "behavioural_independence"
    · rw [Individual.next_step_av_behaviour_list_bi s t sc TAc n hm]
    · rw [Individual.next_step_av_behaviour_list_default s t sc TAc n hm,
        List.length_cons, List.length_dropLast,
        Nat.sub_add_cancel (Nat.one_le_iff_ne_zero.2 (by simpa [List.length_eq_zero] using hne))]
  · intro s l' ts scs TAs ns N hmode hlen hne hN
    set u : Individual := { s with av_behaviour_list := l' } with hu
    have hlpos : 1 ≤ s.av_behaviour_list.length :=
      Nat.one_le_iff_ne_zero.2 (by simpa [List.length_eq_zero] using hne)
    have hl'ne : l' ≠ [] := by
      intro h
      rw [h] at hlen
      simp only [List.length_nil] at hlen
      omega
    have hrun_s := run_steps_av_behaviour_list ts scs TAs ns s hmode hne N
    have hrun_u := run_steps_av_behaviour_list ts scs TAs ns u
      (by rw [show u.alpha_change = s.alpha_change from rfl]; exact hmode)
      (by rw [show u.av_behaviour_list = l' from rfl]; exact hl'ne) N
    rw [hrun_s, hrun_u]
    rw [show u.av_behaviour_list = l' from rfl, hlen]
    rw [revHeads_congr ts scs TAs ns s u rfl rfl N]
    rw [List.take_append_eq_append_take, List.take_append_eq_append_take,
      length_revHeads, Nat.sub_eq_zero_of_le hN, List.take_zero, List.take_zero]

/-- C7 witness -/
theorem claim_C7_witness :
    defaultScenarioState.av_behaviour_list.length = 1 ∧
    (defaultScenarioState.next_step 1 [0] ([0], [0], [0]) zeroNoise).av_behaviour_list.length
      = defaultScenarioState.av_behaviour_list.length ∧
    (Individual.run_steps (fun _ => 1) (fun _ => [0]) (fun _ => ([0], [0], [0]))
        (fun _ => zeroNoise) 1 defaultScenarioState).av_behaviour_list
      = (Individual.run_steps (fun _ => 1) (fun _ => [0]) (fun _ => ([0], [0], [0]))
          (fun _ => zeroNoise) 1
          { defaultScenarioState with av_behaviour_list := [0] }).av_behaviour_list := by
  have hne : defaultScenarioState.av_behaviour_list ≠ [] := by
    rw [show defaultScenarioState.av_behaviour_list = [meanSqGap [3/5]] from rfl]
    simp
  refine ⟨?_, ?_, ?_⟩
  · exact claim_C7.1
      { M := 1, t := 0, save_timeseries_data := false, compression_factor := 1,
        phi_array := [0], alpha_change := "default" }
      [3/5] [1/5] [1] 1 [0] [0] [0] [0] [0] [0] 0
  · exact claim_C7.2.1 defaultScenarioState 1 [0] ([0], [0], [0]) zeroNoise hne
  · exact claim_C7.2.2 defaultScenarioState [0] (fun _ => 1) (fun _ => [0])
      (fun _ => ([0], [0], [0])) (fun _ => zeroNoise) 1 (by decide) rfl hne
      (by rw [show defaultScenarioState.av_behaviour_list.length = 1 from rfl])

end CultureNetwork
